import Mathlib

/-!
Verification of the core of `plugin/pythogen.py`: the per-plugin settings
store with corruption recovery, the process-wide plugin registry, and the
vim binding generator (`Gin` / `GinMethod`).

Python dicts are embedded as association lists over `String` keys with
in-place update (`ainsert` replaces the first matching key, else appends,
matching `d[k] = v`).  JSON values stored in settings files are embedded as
`Val`.  The file system touched by the store is an association list from
paths to `FileContent`; a file whose content is not a JSON object
(`FileContent.bad`) makes `json.load` fail, which the model renders as
`Except.error`.
-/

/-- `alookup l k` is Python `d[k]` / `d.get(k)` on a dict modelled as an
association list: the value at the first matching key. -/
def alookup {α : Type} : List (String × α) → String → Option α
  | [], _ => none
  | (k, v) :: t, key => if k = key then some v else alookup t key

/-- `amem l k` is Python `k in d`. -/
def amem {α : Type} (l : List (String × α)) (k : String) : Bool :=
  (alookup l k).isSome

/-- `ainsert l k v` is Python `d[k] = v`: replace the first binding of `k`
in place, or append a new binding. -/
def ainsert {α : Type} : List (String × α) → String → α → List (String × α)
  | [], k, v => [(k, v)]
  | (k', v') :: t, k, v =>
    if k' = k then (k, v) :: t else (k', v') :: ainsert t k v

/-- `aremove l k` removes the first binding of `k` (used by `mv`'s effect on
the source path). -/
def aremove {α : Type} : List (String × α) → String → List (String × α)
  | [], _ => []
  | (k', v') :: t, k => if k' = k then t else (k', v') :: aremove t k

/-- JSON-representable settings values. -/
inductive Val : Type
  /-- Python `None` / JSON `null` (the default a `Settings.option` call
  without an explicit `default` keyword falls back to). -/
  | null : Val
  | b : Bool → Val
  | i : Int → Val
  | s : String → Val
deriving DecidableEq

/-- Content of a file on disk.  `obj` is a JSON object that `json.load`
parses into a dict; `bad` is any byte string that fails to parse. -/
inductive FileContent : Type
  | obj : List (String × Val) → FileContent
  | bad : String → FileContent
deriving DecidableEq

/-- The file system as a map from paths to file contents; `none` = missing. -/
abbrev FS : Type := List (String × FileContent)

deriving instance DecidableEq for Except

/-- `SETTINGS_PLACE` from the source. -/
def SETTINGS_PLACE : String := ".vim/py_plugins_configs"

/-- In-memory state of a `Settings` object: its plugin name, the loaded
value dict `_storage`, and the declared-options dict `_options`.  In the
source `_options[name]` is the kwargs dict of the `option` call; only its
`default` entry is ever read (`self._options[name]['default']`), so the
model keeps just that value. -/
structure SettingsS : Type where
  name : String
  storage : List (String × Val)
  options : List (String × Val)
deriving DecidableEq

/-- `Settings.file_name`: `os.path.join(os.environ['HOME'], SETTINGS_PLACE,
self.name) + '.json'`. -/
def Settings.fileName (home name : String) : String :=
  home ++ "/" ++ SETTINGS_PLACE ++ "/" ++ name ++ ".json"

/-- The value `self[k]` produced for a declared key `k` while building
`Settings.items`: the stored value if present, else the declared default.
(`k` always comes from `_options`, so the `KeyError` branch of
`__getitem__` cannot trigger there; `Option.getD Val.null` fills that
unreachable case.) -/
def Settings.item_val (s : SettingsS) (k : String) : Val :=
  match alookup s.storage k with
  | some v => v
  | none => (alookup s.options k).getD Val.null

/-- `Settings.items`: `{k: self[k] for k in self._options.keys()}`. -/
def Settings.items_of (s : SettingsS) : List (String × Val) :=
  s.options.map fun kv => (kv.1, Settings.item_val s kv.1)

/-- `Settings.load`: reparse the settings file; `_storage` becomes the
parsed dict.  A missing or unparsable file raises, modelled as `.error`. -/
def Settings.load (home : String) (fs : FS) (s : SettingsS) :
    Except Unit SettingsS :=
  match alookup fs (Settings.fileName home s.name) with
  | some (.obj m) => .ok { s with storage := m }
  | _ => .error ()

/-- `Settings.save`: write `dict(self.items())` to the settings file
(the `mkdir -p` has no effect in this path-map model). -/
def Settings.save (home : String) (fs : FS) (s : SettingsS) : FS :=
  ainsert fs (Settings.fileName home s.name) (.obj (Settings.items_of s))

/-- `Settings.force_load`: try `load`; on failure back up an existing file
by `mv <file> <file>~`, then `save` clean settings and `load` again.  The
final `load` reads the object just written, so its error branch is
unreachable; the model returns the state unchanged there. -/
def Settings.force_load (home : String) (fs : FS) (s : SettingsS) :
    FS × SettingsS :=
  match Settings.load home fs s with
  | .ok s' => (fs, s')
  | .error _ =>
    let path := Settings.fileName home s.name
    let fs1 : FS :=
      match alookup fs path with
      | some c => ainsert (aremove fs path) (path ++ "~") c
      | none => fs
    let fs2 := Settings.save home fs1 s
    match Settings.load home fs2 s with
    | .ok s' => (fs2, s')
    | .error _ => (fs2, s)

/-- `Settings.__init__`: empty `_storage` and `_options`, then
`force_load`. -/
def Settings.init (home : String) (fs : FS) (name : String) :
    FS × SettingsS :=
  Settings.force_load home fs ⟨name, [], []⟩

/-- `Settings.option(name, **kwargs)`: record the declaration (a repeated
declaration overwrites the previous kwargs dict), and if `name` has no
stored value yet, `save` then `load`.  A call without an explicit default
passes `Val.null` (the source inserts `default=None`).  The `load` after
`save` reads the object just written, so its error branch is
unreachable. -/
def Settings.option (home : String) (fs : FS) (s : SettingsS)
    (name : String) (default : Val) : FS × SettingsS :=
  let s1 : SettingsS := { s with options := ainsert s.options name default }
  if amem s1.storage name then (fs, s1)
  else
    let fs1 := Settings.save home fs s1
    match Settings.load home fs1 s1 with
    | .ok s2 => (fs1, s2)
    | .error _ => (fs1, s1)

/-- The error `Settings.__getitem__` raises when a name is neither stored
nor declared (a `KeyError` from `self._options[name]`). -/
inductive SettingsErr : Type
  | undeclared : SettingsErr
deriving DecidableEq

/-- `Settings.__getitem__`: the stored value if present, else the declared
default, else a `KeyError`. -/
def Settings.getItem (s : SettingsS) (name : String) :
    Except SettingsErr Val :=
  match alookup s.storage name with
  | some v => .ok v
  | none =>
    match alookup s.options name with
    | some d => .ok d
    | none => .error .undeclared

/-- `Settings.__setitem__`: `force_load`, mutate `_storage`, `save`. -/
def Settings.setItem (home : String) (fs : FS) (s : SettingsS)
    (name : String) (v : Val) : FS × SettingsS :=
  let r := Settings.force_load home fs s
  let s2 : SettingsS := { r.2 with storage := ainsert r.2.storage name v }
  (Settings.save home r.1 s2, s2)

/-- The error `Plugins.register` raises for a duplicate name
(`Exception('Already existed plugin: ...')`). -/
inductive PluginsErr : Type
  | duplicate : PluginsErr
deriving DecidableEq

/-- The process-wide `Plugins` dict (`Gin.plugins`), mapping plugin name to
the plugin instance.  The instance type is abstract here. -/
abbrev Plugins (A : Type) : Type := List (String × A)

/-- `Plugins.register`: raise on an already-present name, else insert. -/
def Plugins.register {A : Type} (ps : Plugins A) (name : String)
    (plugin : A) : Except PluginsErr (Plugins A) :=
  if amem ps name then .error .duplicate else .ok (ainsert ps name plugin)

/-- `Gin.get(name)`: `cls.plugins.get(name)` — a plain `dict.get`, which
returns `None` (here `Option.none`) when the name is absent. -/
def Gin.get {A : Type} (ps : Plugins A) (name : String) : Option A :=
  alookup ps name

/-- The introspected signature of a Python handler, as
`inspect.getargspec` and `repr` expose it to `GinMethod`:
`fname` is `fn.__name__`; `fn_repr` is `repr(fn)`, the key
`GinMethod.fn_method_name` derives for a function object; `args` is
`spec.args`; `defaults` is `len(spec.defaults or [])` (only the length
and emptiness of the defaults tuple are ever read); `varargs` is whether
`spec.varargs` is not `None`. -/
structure PyFn : Type where
  fname : String
  fn_repr : String
  args : List String
  defaults : Nat
  varargs : Bool
deriving DecidableEq

/-- In-memory state of one `GinMethod` (a Binding): the owning plugin's
name, the handler's signature, and the memoised generation state
(`_vim_fn_name`, `vim_fn_argnames`, `vim_fn_has_varargs`). -/
structure GinMethodS : Type where
  gin_name : String
  fn : PyFn
  vim_fn_name : Option String
  vim_fn_argnames : List String
  vim_fn_has_varargs : Bool
deriving DecidableEq

/-- `GinMethod.__init__`: capture the plugin and the handler's argspec;
`_vim_fn_name` starts as the class attribute `None`. -/
def GinMethod.mk_of (gin_name : String) (fn : PyFn) : GinMethodS :=
  ⟨gin_name, fn, none, [], false⟩

/-- In-memory state of a `Gin` for the method registry: its name and the
`_methods` dict keyed by `GinMethod.fn_method_name(fn)` (= `repr(fn)`). -/
structure GinS : Type where
  name : String
  methods : List (String × GinMethodS)
deriving DecidableEq

/-- `Gin.method(fn)`: get-or-create the `GinMethod` for the handler.
Returns the updated registry together with the Binding handed back. -/
def Gin.method (g : GinS) (fn : PyFn) : GinS × GinMethodS :=
  let key := fn.fn_repr
  match alookup g.methods key with
  | some m => (g, m)
  | none =>
    let m := GinMethod.mk_of g.name fn
    ({ g with methods := ainsert g.methods key m }, m)

/-- Python `str.capitalize`: first character upper-cased, the rest
lower-cased. -/
def pyCapitalize (s : String) : String :=
  match s.data with
  | [] => ""
  | c :: cs => String.mk (c.toUpper :: cs.map Char.toLower)

/-- `str.replace('-', '_')`. -/
def pyReplaceDash (s : String) : String :=
  String.mk (s.data.map fun c => if c = '-' then '_' else c)

/-- The generated host-callable identifier:
`'_'.join([gin.name.capitalize(), fn.__name__]).replace('-', '_')`. -/
def vimFnNameOf (gin_name fname : String) : String :=
  pyReplaceDash (pyCapitalize gin_name ++ "_" ++ fname)

/-- Python truthiness of the `_vim_fn_name` attribute (`None` and the
empty string are falsy). -/
def pyTruthyStr : Option String → Bool
  | none => false
  | some s => if s = "" then false else true

/-- A single-quote character, kept out of string literals. -/
def squote : String := String.mk [Char.ofNat 39]

/-- The vim `function!` declaration text `make_vim_function` passes to
`vim.command`: the `textwrap.dedent`-ed template with the five fields
substituted. -/
def vimFunctionDecl (vim_function argnames range_attr plugin_name
    method_name : String) : String :=
  "\nfunction! " ++ vim_function ++ "(" ++ argnames ++ ") " ++ range_attr ++
  "\npython << endpython\nfrom pythogen import Gin\nplugin = Gin.get(" ++
  squote ++ plugin_name ++ squote ++ ")\nmethod = plugin.get_method(" ++
  squote ++ method_name ++ squote ++
  ")\nmethod.run_from_vim_function()\nendpython\nendfunction\n"

/-- `GinMethod.make_vim_function`: memoised generation of the vim function.
If `_vim_fn_name` is already truthy, return at once; otherwise derive the
name, compute the declared argument names (dropping the reserved
`vimrange` parameter and the default-valued tail), emit the declaration
via `vim.command` (modelled by appending to the `cmds` log), and record
the results on the Binding. -/
def GinMethod.make_vim_function (m : GinMethodS) (cmds : List String) :
    GinMethodS × List String :=
  if pyTruthyStr m.vim_fn_name then (m, cmds)
  else
    let fname := vimFnNameOf m.gin_name m.fn.fname
    let argnames0 := m.fn.args.filter fun a => a ≠ "vimrange"
    let argnames :=
      if m.fn.defaults ≠ 0 then argnames0.take (argnames0.length - m.fn.defaults)
      else argnames0
    let has_varargs := m.fn.defaults ≠ 0 || m.fn.varargs
    let argnames1 := if has_varargs then argnames ++ ["..."] else argnames
    let decl := vimFunctionDecl fname (String.intercalate ", " argnames1)
      (if m.fn.args.contains "vimrange" then "range" else "")
      m.gin_name m.fn.fn_repr
    ({ m with
        vim_fn_name := some fname,
        vim_fn_argnames := argnames,
        vim_fn_has_varargs := has_varargs },
      cmds ++ [decl])

/-- The `-nargs` arity computed inside `GinMethod.make_vim_command` from
the handler's argspec:
`len_defaults = len(spec.defaults or [])`,
`len_args = len(spec.args) - len_defaults`, then the if/elif chain. -/
def GinMethod.command_nargs (spec : PyFn) : String :=
  let len_defaults := spec.defaults
  let len_args := spec.args.length - len_defaults
  if len_args = 0 ∧ len_defaults = 0 ∧ spec.varargs = false then "0"
  else if len_args = 1 ∧ len_defaults = 0 ∧ spec.varargs = false then "1"
  else if len_args = 0 ∧ len_defaults = 1 ∧ spec.varargs = false then "?"
  else if len_args ≠ 0 then "+"
  else "*"

/-- `GinMethod.make_vim_command(command_name)`: compute the arity attrs,
force generation of the vim function (the `vim_fn_name` property), and
emit the `command!` declaration. -/
def GinMethod.make_vim_command (m : GinMethodS) (command_name : String)
    (cmds : List String) : GinMethodS × List String :=
  let attrs := "-nargs=" ++ GinMethod.command_nargs m.fn
  let r := GinMethod.make_vim_function m cmds
  let declaration := "command! " ++ attrs ++ " " ++ command_name ++
    " call " ++ (r.1.vim_fn_name.getD "") ++ "(<f-args>)"
  (r.1, r.2 ++ [declaration])

/-- The host-side call-site data visible to `eval_vim_fn_args` through
`vim.eval`: `avar n` is `vim.eval('a:<n>')` for a named parameter,
`argn` is `int(vim.eval('a:0'))`, `argv j` is `vim.eval('a:<j>')` for the
`j`-th extra value (1-based), and `firstline`/`lastline` are
`vim.eval('a:firstline')` / `vim.eval('a:lastline')`.  All values are
strings, as `vim.eval` returns them. -/
structure VimHost : Type where
  avar : String → String
  argn : Nat
  argv : Nat → String
  firstline : String
  lastline : String

/-- The call `eval_vim_fn_args` makes into the handler: the positional
argument list and the kwargs dict (at most the single range entry). -/
structure Invocation : Type where
  args : List String
  kwargs : List (String × (String × String))
deriving DecidableEq

/-- `GinMethod.eval_vim_fn_args`: fetch each declared parameter by name,
append `a:1 .. a:<a:0>` when varargs are accepted, and put the
`(a:firstline, a:lastline)` pair under the range parameter's name in the
kwargs dict.  The source then invokes `fn(*args, **kwargs)` and emits
`return "<result>"`; the model returns the `Invocation` the handler
receives. -/
def GinMethod.eval_vim_fn_args (vim_fn_argnames : List String)
    (varargs : Bool) (range_argname : Option String) (h : VimHost) :
    Invocation :=
  let args := vim_fn_argnames.map h.avar
  let args :=
    if varargs then args ++ (List.range h.argn).map fun j => h.argv (j + 1)
    else args
  let kwargs :=
    match range_argname with
    | some r => [(r, (h.firstline, h.lastline))]
    | none => []
  ⟨args, kwargs⟩

/-- The five ordered arity rules exactly as the specification words them
(§4.2), over the counts of required and optional parameters and the
variadic flag; written from the spec for comparison with the source's
`GinMethod.command_nargs`. -/
def aritySpecRules (required optionals : Nat) (variadic : Bool) : String :=
  if required = 0 ∧ optionals = 0 ∧ variadic = false then "0"
  else if required = 1 ∧ optionals = 0 ∧ variadic = false then "1"
  else if required = 0 ∧ optionals = 1 ∧ variadic = false then "?"
  else if 1 ≤ required then "+"
  else "*"

/-- Concrete host call-site used to witness the marshalling claim. -/
def c3Host : VimHost :=
  ⟨fun n => if n = "a" then "1" else if n = "b" then "2" else "", 2,
   fun j => if j = 1 then "3" else if j = 2 then "4" else "", "10", "20"⟩

/-- Concrete handler signature used to witness the idempotence claim. -/
def c8_fn : PyFn := ⟨"do_stuff", "frepr", ["a", "vimrange"], 0, true⟩

/-- Concrete plugin state used to witness the idempotence claim. -/
def c8_g : GinS := ⟨"my-plug", []⟩

/-- A file system whose settings file for plugin `p` holds unparsable
content, used to witness the recovery claim. -/
def c1_fs : FS := [(Settings.fileName "/h" "p", .bad "oops")]

/-- A settings state with one declared option and empty storage, used to
witness the recovery claim. -/
def c1_s : SettingsS := ⟨"p", [], [("x", Val.i 5)]⟩


theorem alookup_ainsert_self {α : Type} (l : List (String × α)) (k : String)
    (v : α) : alookup (ainsert l k v) k = some v := by
  induction l with
  | nil => simp [ainsert, alookup]
  | cons kv t ih =>
    by_cases h : kv.1 = k
    · simp [ainsert, h, alookup]
    · simp [ainsert, h, alookup, ih]

theorem alookup_ainsert_ne {α : Type} (l : List (String × α)) (k k' : String)
    (v : α) (h : k' ≠ k) : alookup (ainsert l k v) k' = alookup l k' := by
  induction l with
  | nil => simp [ainsert, alookup, Ne.symm h]
  | cons kv t ih =>
    by_cases hk : kv.1 = k
    · have hk' : kv.1 ≠ k' := by rw [hk]; exact Ne.symm h
      simp [ainsert, hk, alookup, Ne.symm h, hk']
    · simp only [ainsert, hk, if_false, alookup]
      by_cases hk' : kv.1 = k' <;> simp [hk', ih]

theorem amem_ainsert_self {α : Type} (l : List (String × α)) (k : String)
    (v : α) : amem (ainsert l k v) k = true := by
  simp [amem, alookup_ainsert_self]

theorem amem_eq_false_iff {α : Type} (l : List (String × α)) (k : String) :
    amem l k = false ↔ alookup l k = none := by
  cases h : alookup l k <;> simp [amem, h]

theorem alookup_map_keys {α β : Type} (l : List (String × α))
    (f : String → β) (k : String) :
    alookup (l.map fun kv => (kv.1, f kv.1)) k =
      (alookup l k).map fun _ => f k := by
  induction l with
  | nil => simp [alookup]
  | cons kv t ih =>
    by_cases h : kv.1 = k
    · simp [alookup, h]
    · simp [alookup, h, ih]

theorem alookup_items (s : SettingsS) (k : String) :
    alookup (Settings.items_of s) k =
      (alookup s.options k).map fun _ => Settings.item_val s k :=
  alookup_map_keys s.options (Settings.item_val s) k

theorem amem_items (s : SettingsS) (k : String) :
    amem (Settings.items_of s) k = amem s.options k := by
  cases h : alookup s.options k <;>
    simp [amem, alookup_items, h]

theorem item_val_of_not_stored (s : SettingsS) (k : String) (d : Val)
    (hs : alookup s.storage k = none) (ho : alookup s.options k = some d) :
    Settings.item_val s k = d := by
  simp [Settings.item_val, hs, ho]

theorem append_tilde_ne (s : String) : s ++ "~" ≠ s := by
  intro h
  have hl := congrArg String.length h
  have ht : ("~" : String).length = 1 := rfl
  rw [String.length_append, ht] at hl
  omega

theorem load_after_save (home : String) (fs : FS) (s : SettingsS) :
    Settings.load home (Settings.save home fs s) s =
      .ok { s with storage := Settings.items_of s } := by
  simp [Settings.load, Settings.save, alookup_ainsert_self]

theorem force_load_of_ok (home : String) (fs : FS) (s s' : SettingsS)
    (h : Settings.load home fs s = .ok s') :
    Settings.force_load home fs s = (fs, s') := by
  simp [Settings.force_load, h]

theorem force_load_of_error (home : String) (fs : FS) (s : SettingsS)
    (h : Settings.load home fs s = .error ()) :
    Settings.force_load home fs s =
      (Settings.save home
        (match alookup fs (Settings.fileName home s.name) with
         | some c =>
           ainsert (aremove fs (Settings.fileName home s.name))
             (Settings.fileName home s.name ++ "~") c
         | none => fs) s,
       { s with storage := Settings.items_of s }) := by
  simp only [Settings.force_load, h, load_after_save]

theorem force_load_name (home : String) (fs : FS) (s : SettingsS) :
    (Settings.force_load home fs s).2.name = s.name ∧
      (Settings.force_load home fs s).2.options = s.options := by
  cases h : Settings.load home fs s with
  | ok s' =>
    rw [force_load_of_ok home fs s s' h]
    revert h
    simp only [Settings.load]
    cases alookup fs (Settings.fileName home s.name) with
    | none => intro h; cases h
    | some c =>
      cases c with
      | obj m => intro h; cases h; exact ⟨rfl, rfl⟩
      | bad b => intro h; cases h
  | error e =>
    cases e
    rw [force_load_of_error home fs s h]
    exact ⟨rfl, rfl⟩

theorem force_load_load_ok (home : String) (fs : FS) (s : SettingsS)
    (h : Settings.load home fs s = .error ()) :
    Settings.load home (Settings.force_load home fs s).1
        (Settings.force_load home fs s).2 =
      .ok (Settings.force_load home fs s).2 := by
  rw [force_load_of_error home fs s h]
  simp [Settings.load, Settings.save, alookup_ainsert_self,
    Settings.items_of]

theorem option_of_not_stored (home : String) (fs : FS) (s : SettingsS)
    (name : String) (d : Val) (h : amem s.storage name = false) :
    Settings.option home fs s name d =
      (Settings.save home fs { s with options := ainsert s.options name d },
       { s with options := ainsert s.options name d,
                storage := Settings.items_of
                  { s with options := ainsert s.options name d } }) := by
  simp [Settings.option, h, load_after_save]

theorem option_of_stored (home : String) (fs : FS) (s : SettingsS)
    (name : String) (d : Val) (h : amem s.storage name = true) :
    Settings.option home fs s name d =
      (fs, { s with options := ainsert s.options name d }) := by
  simp [Settings.option, h]

theorem vimFnNameOf_ne_empty (a b : String) : vimFnNameOf a b ≠ "" := by
  intro hcontra
  have hl := congrArg String.length hcontra
  simp only [vimFnNameOf, pyReplaceDash] at hl
  rw [String.length_mk, List.length_map] at hl
  have hdl : (pyCapitalize a ++ "_" ++ b).data.length =
      (pyCapitalize a ++ "_" ++ b).length := rfl
  have hu : ("_" : String).length = 1 := rfl
  have hz : ("" : String).length = 0 := rfl
  rw [hdl, String.length_append, String.length_append, hu, hz] at hl
  omega

/-- C2: arity derivation is a total, deterministic function of the
handler's signature (`GinMethod.command_nargs` is a Lean function of the
argspec) and agrees, on every signature, with the specification's five
ordered rules over the counts of required (`len(args) - len(defaults)`)
and optional (`len(defaults)`) parameters and the variadic flag. -/
theorem C2_arity_follows_spec_rules (spec : PyFn) :
    GinMethod.command_nargs spec =
      aritySpecRules (spec.args.length - spec.defaults) spec.defaults
        spec.varargs := by
  cases hv : spec.varargs <;>
    simp only [GinMethod.command_nargs, aritySpecRules, hv] <;>
    split_ifs <;> first | rfl | omega

/-- C3: for every handler whose binding declares parameter names
`[a, b]`, accepts variadic extras and requests a range context argument,
a host callback supplying `a = "1"`, `b = "2"`, a variadic count of 2
with indexed values `"3"` and `"4"`, and range lines `(10, 20)` makes
`eval_vim_fn_args` invoke the handler with positional arguments
`["1", "2", "3", "4"]` in that order and the `(firstline, lastline)`
pair passed under the range parameter's name in the kwargs dict, not
mixed into the positional sequence. -/
theorem C3_argument_marshalling (h : VimHost) (r : String)
    (ha : h.avar "a" = "1") (hb : h.avar "b" = "2") (hn : h.argn = 2)
    (h3 : h.argv 1 = "3") (h4 : h.argv 2 = "4")
    (hf : h.firstline = "10") (hl : h.lastline = "20") :
    GinMethod.eval_vim_fn_args ["a", "b"] true (some r) h =
      ⟨["1", "2", "3", "4"], [(r, ("10", "20"))]⟩ := by
  simp [GinMethod.eval_vim_fn_args, ha, hb, hn, h3, h4, hf, hl,
    List.range_succ]

/-- Witness for C3 at the concrete host call-site `c3Host`. -/
theorem C3_argument_marshalling_witness :
    GinMethod.eval_vim_fn_args ["a", "b"] true (some "vimrange") c3Host =
      ⟨["1", "2", "3", "4"], [("vimrange", ("10", "20"))]⟩ :=
  C3_argument_marshalling c3Host "vimrange" rfl rfl rfl rfl rfl rfl rfl

/-- C6: registering a never-registered plugin name succeeds and a
subsequent lookup returns that plugin; a second `register` with the same
name raises the duplicate error (so no registry value is produced and the
existing mapping stands). -/
theorem C6_register_unique {A : Type} (ps : Plugins A) (name : String)
    (p q : A) (h : amem ps name = false) :
    Plugins.register ps name p = .ok (ainsert ps name p) ∧
    Gin.get (ainsert ps name p) name = some p ∧
    Plugins.register (ainsert ps name p) name q = .error .duplicate := by
  refine ⟨?_, ?_, ?_⟩
  · simp [Plugins.register, h]
  · simp [Gin.get, alookup_ainsert_self]
  · simp [Plugins.register, amem_ainsert_self]

/-- Witness for C6 on an empty registry of `Nat`-labelled plugins. -/
theorem C6_register_unique_witness :
    Plugins.register ([] : Plugins Nat) "p" 1 = .ok [("p", 1)] ∧
    Gin.get [("p", (1 : Nat))] "p" = some 1 ∧
    Plugins.register [("p", (1 : Nat))] "p" 2 = .error .duplicate :=
  C6_register_unique [] "p" 1 2 rfl

/-- C7 counterexample: `Gin.get` is a plain `dict.get`; on an absent name
it returns the absent value `None` (`Option.none`) instead of failing
with a not-found error, refuting the claim that lookup of an absent name
fails. -/
theorem C7_lookup_counterexample :
    Gin.get ([] : Plugins Nat) "missing" = none := rfl

/-- C7 amended: for every name absent from the plugin registry,
`Gin.get` returns `None` (no error is raised); for every registered name
it returns the registered plugin. -/
theorem C7_lookup_amended {A : Type} (ps : Plugins A) (name : String) :
    (amem ps name = false → Gin.get ps name = none) ∧
    (∀ p : A, alookup ps name = some p → Gin.get ps name = some p) := by
  constructor
  · intro h
    simpa [Gin.get] using (amem_eq_false_iff ps name).mp h
  · intro p h
    simpa [Gin.get] using h

/-- Witness for the amended C7 on a one-entry registry. -/
theorem C7_lookup_amended_witness :
    Gin.get [("a", (1 : Nat))] "a" = some 1 ∧
    Gin.get [("a", (1 : Nat))] "b" = none :=
  ⟨(C7_lookup_amended [("a", 1)] "a").2 1 rfl,
   (C7_lookup_amended [("a", 1)] "b").1 rfl⟩

/-- C4 counterexample: a value stored under a name that was never
declared (here written through `__setitem__`, which does not require a
declaration) is returned by `__getitem__` instead of failing with the
undeclared-option error, refuting the claim's "regardless of whether the
backing storage happens to contain a value under that name". -/
theorem C4_undeclared_get_counterexample :
    amem (Settings.setItem "/h" (Settings.init "/h" [] "p").1
        (Settings.init "/h" [] "p").2 "y" (Val.i 7)).2.options "y" = false ∧
    Settings.getItem (Settings.setItem "/h" (Settings.init "/h" [] "p").1
        (Settings.init "/h" [] "p").2 "y" (Val.i 7)).2 "y" =
      .ok (Val.i 7) := by
  decide

/-- C4 amended: `get(name)` fails with the undeclared-option error only
when `name` is neither declared nor present in the backing storage; a
declared option with no stored value yields its default; a stored value
is returned even when the name was never declared. -/
theorem C4_undeclared_get_amended (s : SettingsS) (name : String) :
    (alookup s.storage name = none → alookup s.options name = none →
      Settings.getItem s name = .error .undeclared) ∧
    (∀ d : Val, alookup s.storage name = none →
      alookup s.options name = some d → Settings.getItem s name = .ok d) ∧
    (∀ v : Val, alookup s.storage name = some v →
      Settings.getItem s name = .ok v) := by
  refine ⟨fun h1 h2 => ?_, fun d h1 h2 => ?_, fun v h1 => ?_⟩ <;>
    simp [Settings.getItem, h1]
  · simp [h2]
  · simp [h2]

/-- Witness for the amended C4 on three concrete stores. -/
theorem C4_undeclared_get_amended_witness :
    Settings.getItem ⟨"p", [], []⟩ "x" = .error .undeclared ∧
    Settings.getItem ⟨"p", [], [("x", Val.i 5)]⟩ "x" = .ok (Val.i 5) ∧
    Settings.getItem ⟨"p", [("y", Val.i 7)], []⟩ "y" = .ok (Val.i 7) :=
  ⟨(C4_undeclared_get_amended ⟨"p", [], []⟩ "x").1 rfl rfl,
   (C4_undeclared_get_amended ⟨"p", [], [("x", Val.i 5)]⟩ "x").2.1
     (Val.i 5) rfl rfl,
   (C4_undeclared_get_amended ⟨"p", [("y", Val.i 7)], []⟩ "y").2.2
     (Val.i 7) rfl⟩

/-- C5 counterexample: the second declaration of `x` is not a no-op — it
overwrites the declared default in `_options` (last-wins: the map holds
`d2 = 2` after holding `d1 = 1`), and on a state where `x` has no stored
value, `get` returns `d2`, not `d1`.  (In the undisturbed run `get`
returns `d1` only because the first declaration's save+reload stored
it.) -/
theorem C5_first_wins_counterexample :
    (Settings.option "/h" (Settings.init "/h" [] "p").1
        (Settings.init "/h" [] "p").2 "x" (Val.i 1)).2.options =
      [("x", Val.i 1)] ∧
    (Settings.option "/h"
        (Settings.option "/h" (Settings.init "/h" [] "p").1
          (Settings.init "/h" [] "p").2 "x" (Val.i 1)).1
        (Settings.option "/h" (Settings.init "/h" [] "p").1
          (Settings.init "/h" [] "p").2 "x" (Val.i 1)).2
        "x" (Val.i 2)).2.options = [("x", Val.i 2)] ∧
    Settings.getItem
      ⟨"p", [],
        (Settings.option "/h"
          (Settings.option "/h" (Settings.init "/h" [] "p").1
            (Settings.init "/h" [] "p").2 "x" (Val.i 1)).1
          (Settings.option "/h" (Settings.init "/h" [] "p").1
            (Settings.init "/h" [] "p").2 "x" (Val.i 1)).2
          "x" (Val.i 2)).2.options⟩ "x" = .ok (Val.i 2) := by
  decide

/-- C5 amended: on a store with no stored value under `name`, declaring
`name` with default `d1` and then again with `d2` does not crash; the
second declaration rewrites the declared default (last-wins) but performs
no save and leaves the stored values and the file unchanged, so a
subsequent `get(name)` returns `d1` — the value the first declaration's
save+reload cycle stored — not `d2`. -/
theorem C5_first_wins_amended (home : String) (fs : FS) (s : SettingsS)
    (name : String) (d1 d2 : Val) (r1 r2 : FS × SettingsS)
    (h : amem s.storage name = false)
    (h1 : Settings.option home fs s name d1 = r1)
    (h2 : Settings.option home r1.1 r1.2 name d2 = r2) :
    Settings.getItem r2.2 name = .ok d1 ∧
    r2.1 = r1.1 ∧ r2.2.storage = r1.2.storage := by
  subst h1
  rw [option_of_not_stored home fs s name d1 h] at h2 ⊢
  have ho : alookup
      ({ s with options := ainsert s.options name d1 } : SettingsS).options
        name = some d1 := alookup_ainsert_self _ _ _
  have hmem : amem (Settings.items_of
      { s with options := ainsert s.options name d1 }) name = true := by
    rw [amem_items]
    exact amem_ainsert_self _ _ _
  rw [option_of_stored _ _ _ _ _ hmem] at h2
  subst h2
  have hs : alookup (Settings.items_of
      { s with options := ainsert s.options name d1 }) name = some d1 := by
    rw [alookup_items, ho]
    have hns : alookup
        ({ s with options := ainsert s.options name d1 } : SettingsS).storage
          name = none := (amem_eq_false_iff s.storage name).mp h
    simp [item_val_of_not_stored _ name d1 hns ho]
  exact ⟨by simp [Settings.getItem, hs], rfl, rfl⟩

/-- Witness for the amended C5: fresh store, declare `x` with 1 then
with 2; `get` returns 1 and the second declaration saved nothing. -/
theorem C5_first_wins_amended_witness :
    Settings.getItem
        (Settings.option "/h"
          (Settings.option "/h" [] ⟨"p", [], []⟩ "x" (Val.i 1)).1
          (Settings.option "/h" [] ⟨"p", [], []⟩ "x" (Val.i 1)).2
          "x" (Val.i 2)).2 "x" = .ok (Val.i 1) ∧
    (Settings.option "/h"
        (Settings.option "/h" [] ⟨"p", [], []⟩ "x" (Val.i 1)).1
        (Settings.option "/h" [] ⟨"p", [], []⟩ "x" (Val.i 1)).2
        "x" (Val.i 2)).1 =
      (Settings.option "/h" [] ⟨"p", [], []⟩ "x" (Val.i 1)).1 ∧
    (Settings.option "/h"
        (Settings.option "/h" [] ⟨"p", [], []⟩ "x" (Val.i 1)).1
        (Settings.option "/h" [] ⟨"p", [], []⟩ "x" (Val.i 1)).2
        "x" (Val.i 2)).2.storage =
      (Settings.option "/h" [] ⟨"p", [], []⟩ "x" (Val.i 1)).2.storage :=
  C5_first_wins_amended "/h" [] ⟨"p", [], []⟩ "x" (Val.i 1) (Val.i 2)
    _ _ rfl rfl rfl

theorem setItem_of_load_ok (home : String) (fs : FS) (s s' : SettingsS)
    (name : String) (v : Val)
    (hl : Settings.load home fs s = .ok s') :
    Settings.setItem home fs s name v =
      (Settings.save home fs { s' with storage := ainsert s'.storage name v },
       { s' with storage := ainsert s'.storage name v }) := by
  simp [Settings.setItem, force_load_of_ok home fs s s' hl]

theorem init_of_load_ok (home : String) (fs : FS) (pname : String)
    (m : List (String × Val))
    (hl : alookup fs (Settings.fileName home pname) = some (.obj m)) :
    Settings.init home fs pname = (fs, ⟨pname, m, []⟩) := by
  have hload : Settings.load home fs ⟨pname, [], []⟩ = .ok ⟨pname, m, []⟩ := by
    simp [Settings.load, hl]
  rw [Settings.init, force_load_of_ok _ _ _ _ hload]

/-- C9 counterexample: for a store constructed over a file that already
holds a value for `x` (here 7), `declareOption("x", default=5)` does not
make `get("x")` return 5 — the stored value shadows the default — so the
claim's universal quantification over every Settings store fails. -/
theorem C9_roundtrip_counterexample :
    Settings.getItem
      (Settings.option "/h"
        (Settings.init "/h"
          [(Settings.fileName "/h" "p", .obj [("x", Val.i 7)])] "p").1
        (Settings.init "/h"
          [(Settings.fileName "/h" "p", .obj [("x", Val.i 7)])] "p").2
        "x" (Val.i 5)).2 "x" = .ok (Val.i 7) := by
  decide

/-- C9 amended: for every Settings store with no stored value under `x`,
after `declareOption("x", default=5)` `get("x")` returns 5; after
`set("x", 9)` — which `force_load`s from disk, mutates, then saves the
full option set — `get("x")` returns 9; and a fresh store constructed
over the resulting file again yields `get("x") = 9`. -/
theorem C9_roundtrip_amended (home : String) (fs : FS) (s : SettingsS)
    (r1 r2 r3 : FS × SettingsS)
    (h : amem s.storage "x" = false)
    (h1 : Settings.option home fs s "x" (Val.i 5) = r1)
    (h2 : Settings.setItem home r1.1 r1.2 "x" (Val.i 9) = r2)
    (h3 : Settings.init home r2.1 s.name = r3) :
    Settings.getItem r1.2 "x" = .ok (Val.i 5) ∧
    Settings.getItem r2.2 "x" = .ok (Val.i 9) ∧
    Settings.getItem r3.2 "x" = .ok (Val.i 9) := by
  subst h1
  rw [option_of_not_stored home fs s "x" (Val.i 5) h] at h2 ⊢
  have ho : alookup
      ({ s with options := ainsert s.options "x" (Val.i 5) } :
        SettingsS).options "x" = some (Val.i 5) :=
    alookup_ainsert_self _ _ _
  have hns : alookup
      ({ s with options := ainsert s.options "x" (Val.i 5) } :
        SettingsS).storage "x" = none :=
    (amem_eq_false_iff s.storage "x").mp h
  have hsx : alookup (Settings.items_of
      { s with options := ainsert s.options "x" (Val.i 5) }) "x" =
      some (Val.i 5) := by
    rw [alookup_items, ho]
    simp [item_val_of_not_stored _ "x" (Val.i 5) hns ho]
  have hload : Settings.load home
      (Settings.save home fs
        { s with options := ainsert s.options "x" (Val.i 5) })
      { s with options := ainsert s.options "x" (Val.i 5),
               storage := Settings.items_of
                 { s with options := ainsert s.options "x" (Val.i 5) } } =
      .ok { s with options := ainsert s.options "x" (Val.i 5),
                   storage := Settings.items_of
                     { s with options := ainsert s.options "x" (Val.i 5) } } := by
    simp [Settings.load, Settings.save, alookup_ainsert_self]
  rw [setItem_of_load_ok _ _ _ _ _ _ hload] at h2
  subst h2
  have hl3 : alookup
      (Settings.save home
        (Settings.save home fs
          { s with options := ainsert s.options "x" (Val.i 5) })
        { s with options := ainsert s.options "x" (Val.i 5),
                 storage := ainsert (Settings.items_of
                   { s with options := ainsert s.options "x" (Val.i 5) })
                   "x" (Val.i 9) })
      (Settings.fileName home s.name) =
      some (.obj (Settings.items_of
        { s with options := ainsert s.options "x" (Val.i 5),
                 storage := ainsert (Settings.items_of
                   { s with options := ainsert s.options "x" (Val.i 5) })
                   "x" (Val.i 9) })) := by
    simp [Settings.save, alookup_ainsert_self]
  rw [init_of_load_ok _ _ _ _ hl3] at h3
  subst h3
  refine ⟨by simp [Settings.getItem, hsx], ?_, ?_⟩
  · simp [Settings.getItem, alookup_ainsert_self]
  · have hv : alookup (Settings.items_of
        { s with options := ainsert s.options "x" (Val.i 5),
                 storage := ainsert (Settings.items_of
                   { s with options := ainsert s.options "x" (Val.i 5) })
                   "x" (Val.i 9) }) "x" = some (Val.i 9) := by
      rw [alookup_items]
      have ho2 : alookup
          ({ s with options := ainsert s.options "x" (Val.i 5),
                    storage := ainsert (Settings.items_of
                      { s with options := ainsert s.options "x" (Val.i 5) })
                      "x" (Val.i 9) } : SettingsS).options "x" =
          some (Val.i 5) := alookup_ainsert_self _ _ _
      rw [ho2]
      simp [Settings.item_val, alookup_ainsert_self]
    simp [Settings.getItem, hv]

/-- Witness for the amended C9: fresh store over an empty file system. -/
theorem C9_roundtrip_amended_witness :
    Settings.getItem
        (Settings.option "/h" [] ⟨"p", [], []⟩ "x" (Val.i 5)).2 "x" =
      .ok (Val.i 5) ∧
    Settings.getItem
        (Settings.setItem "/h"
          (Settings.option "/h" [] ⟨"p", [], []⟩ "x" (Val.i 5)).1
          (Settings.option "/h" [] ⟨"p", [], []⟩ "x" (Val.i 5)).2
          "x" (Val.i 9)).2 "x" = .ok (Val.i 9) ∧
    Settings.getItem
        (Settings.init "/h"
          (Settings.setItem "/h"
            (Settings.option "/h" [] ⟨"p", [], []⟩ "x" (Val.i 5)).1
            (Settings.option "/h" [] ⟨"p", [], []⟩ "x" (Val.i 5)).2
            "x" (Val.i 9)).1 "p").2 "x" = .ok (Val.i 9) :=
  C9_roundtrip_amended "/h" [] ⟨"p", [], []⟩ _ _ _ rfl rfl rfl rfl

theorem setItem_eq (home : String) (fs : FS) (s : SettingsS)
    (name : String) (v : Val) :
    Settings.setItem home fs s name v =
      (Settings.save home (Settings.force_load home fs s).1
        { (Settings.force_load home fs s).2 with
            storage := ainsert (Settings.force_load home fs s).2.storage
              name v },
       { (Settings.force_load home fs s).2 with
           storage := ainsert (Settings.force_load home fs s).2.storage
             name v }) := rfl

/-- C10: every `save` writes to disk exactly the mapping over the declared
option names (`items`), so a value `set` under a never-declared name is
held only in the in-memory storage, is omitted from the persisted file,
and is gone after the next (successful) `load` — `get` then fails on it. -/
theorem C10_undeclared_set_not_persisted (home : String) (fs : FS)
    (s : SettingsS) (y : String) (v : Val) (r : FS × SettingsS)
    (h : amem s.options y = false)
    (hr : Settings.setItem home fs s y v = r) :
    alookup r.2.storage y = some v ∧
    alookup r.1 (Settings.fileName home s.name) =
      some (.obj (Settings.items_of r.2)) ∧
    amem (Settings.items_of r.2) y = false ∧
    Settings.load home r.1 r.2 =
      .ok { r.2 with storage := Settings.items_of r.2 } ∧
    Settings.getItem { r.2 with storage := Settings.items_of r.2 } y =
      .error .undeclared := by
  subst hr
  obtain ⟨hname, hopts⟩ := force_load_name home fs s
  rw [setItem_eq]
  have hmem : amem (Settings.items_of
      { (Settings.force_load home fs s).2 with
          storage := ainsert (Settings.force_load home fs s).2.storage
            y v }) y = false := by
    rw [amem_items]
    simpa [hopts] using h
  refine ⟨alookup_ainsert_self _ _ _, ?_, hmem, ?_, ?_⟩
  · simp only [Settings.save]
    have hn2 : ({ (Settings.force_load home fs s).2 with
        storage := ainsert (Settings.force_load home fs s).2.storage y v } :
          SettingsS).name = s.name := hname
    rw [hn2]
    exact alookup_ainsert_self _ _ _
  · exact load_after_save home (Settings.force_load home fs s).1 _
  · have h5a : alookup (Settings.items_of
        { (Settings.force_load home fs s).2 with
            storage := ainsert (Settings.force_load home fs s).2.storage
              y v }) y = none := (amem_eq_false_iff _ _).mp hmem
    have h5b : alookup ({ (Settings.force_load home fs s).2 with
        storage := ainsert (Settings.force_load home fs s).2.storage y v } :
          SettingsS).options y = none := by
      simpa [hopts] using (amem_eq_false_iff s.options y).mp h
    simp [Settings.getItem, h5a, h5b]

/-- Witness for C10: set the never-declared `y` on a fresh store. -/
theorem C10_undeclared_set_not_persisted_witness :
    alookup (Settings.setItem "/h" [] ⟨"p", [], []⟩ "y" (Val.i 7)).2.storage
        "y" = some (Val.i 7) ∧
    alookup (Settings.setItem "/h" [] ⟨"p", [], []⟩ "y" (Val.i 7)).1
        (Settings.fileName "/h" "p") =
      some (.obj (Settings.items_of
        (Settings.setItem "/h" [] ⟨"p", [], []⟩ "y" (Val.i 7)).2)) ∧
    amem (Settings.items_of
        (Settings.setItem "/h" [] ⟨"p", [], []⟩ "y" (Val.i 7)).2) "y" =
      false ∧
    Settings.load "/h" (Settings.setItem "/h" [] ⟨"p", [], []⟩ "y" (Val.i 7)).1
        (Settings.setItem "/h" [] ⟨"p", [], []⟩ "y" (Val.i 7)).2 =
      .ok { (Settings.setItem "/h" [] ⟨"p", [], []⟩ "y" (Val.i 7)).2 with
              storage := Settings.items_of
                (Settings.setItem "/h" [] ⟨"p", [], []⟩ "y" (Val.i 7)).2 } ∧
    Settings.getItem
        { (Settings.setItem "/h" [] ⟨"p", [], []⟩ "y" (Val.i 7)).2 with
            storage := Settings.items_of
              (Settings.setItem "/h" [] ⟨"p", [], []⟩ "y" (Val.i 7)).2 } "y" =
      .error .undeclared :=
  C10_undeclared_set_not_persisted "/h" [] ⟨"p", [], []⟩ "y" (Val.i 7) _
    rfl rfl

/-- C1: constructing a Settings store runs `force_load` on a state with
empty storage; stated here for any declared-options map (empty at
construction, and unchanged in shape by later declarations).  When the
file's content fails to load: (a)/(d) an existing file is renamed to the
backup path obtained by appending the fixed suffix `~`, its content
preserved byte-for-byte; (b) a fresh valid file is written whose mapping
is exactly the declared options at their default values; (c) `get` on any
declared option afterwards returns its default. -/
theorem C1_corruption_recovery (home pname : String)
    (opts : List (String × Val)) (fs : FS) (r : FS × SettingsS)
    (hfail : Settings.load home fs ⟨pname, [], opts⟩ = .error ())
    (hr : Settings.force_load home fs ⟨pname, [], opts⟩ = r) :
    (∀ c, alookup fs (Settings.fileName home pname) = some c →
      alookup r.1 (Settings.fileName home pname ++ "~") = some c) ∧
    alookup r.1 (Settings.fileName home pname) =
      some (.obj (Settings.items_of ⟨pname, [], opts⟩)) ∧
    (∀ k, alookup (Settings.items_of ⟨pname, [], opts⟩) k =
      alookup opts k) ∧
    (∀ k d, alookup opts k = some d → Settings.getItem r.2 k = .ok d) := by
  subst hr
  rw [force_load_of_error home fs _ hfail]
  have hitems : ∀ k, alookup (Settings.items_of ⟨pname, [], opts⟩) k =
      alookup opts k := by
    intro k
    rw [alookup_items]
    cases hk : alookup opts k with
    | none =>
      have hk' : alookup (⟨pname, [], opts⟩ : SettingsS).options k = none := hk
      simp [hk']
    | some d =>
      have hk' : alookup (⟨pname, [], opts⟩ : SettingsS).options k =
        some d := hk
      simp [hk', Settings.item_val, alookup, hk]
  refine ⟨?_, ?_, hitems, ?_⟩
  · intro c hc
    have hc' : alookup fs
        (Settings.fileName home (⟨pname, [], opts⟩ : SettingsS).name) =
      some c := hc
    rw [hc']
    simp only [Settings.save]
    rw [alookup_ainsert_ne _ _ _ _
      (append_tilde_ne (Settings.fileName home pname))]
    exact alookup_ainsert_self _ _ _
  · simp [Settings.save, alookup_ainsert_self]
  · intro k d hd
    have hk := hitems k
    rw [hd] at hk
    simp [Settings.getItem, hk]

/-- Witness for C1: a one-option state over a file with unparsable
content; the bad bytes end up under the `~` backup path, the fresh file
holds the declared default, and `get` returns it. -/
theorem C1_corruption_recovery_witness :
    alookup (Settings.force_load "/h" c1_fs c1_s).1
        (Settings.fileName "/h" "p" ++ "~") = some (.bad "oops") ∧
    alookup (Settings.force_load "/h" c1_fs c1_s).1
        (Settings.fileName "/h" "p") =
      some (.obj (Settings.items_of ⟨"p", [], [("x", Val.i 5)]⟩)) ∧
    Settings.getItem (Settings.force_load "/h" c1_fs c1_s).2 "x" =
      .ok (Val.i 5) :=
  ⟨(C1_corruption_recovery "/h" "p" [("x", Val.i 5)] c1_fs _ (by decide)
      rfl).1 (.bad "oops") (by decide),
   (C1_corruption_recovery "/h" "p" [("x", Val.i 5)] c1_fs _ (by decide)
      rfl).2.1,
   (C1_corruption_recovery "/h" "p" [("x", Val.i 5)] c1_fs _ (by decide)
      rfl).2.2.2 "x" (Val.i 5) rfl⟩

/-- C8: `Gin.method` called again for the same handler returns the
identical cached Binding with no registry change, and
`make_vim_function` emits the host declaration exactly once — the first
call appends one `vim.command` and records the generated identifier, the
second call is a no-op that leaves both the Binding (with its cached
identifier) and the command log unchanged. -/
theorem C8_binding_idempotent (g : GinS) (fn : PyFn) (cmds : List String)
    (r1 : GinS × GinMethodS) (e1 : GinMethodS × List String)
    (hfresh : alookup g.methods fn.fn_repr = none)
    (h1 : Gin.method g fn = r1)
    (he : GinMethod.make_vim_function r1.2 cmds = e1) :
    Gin.method r1.1 fn = r1 ∧
    e1.2.length = cmds.length + 1 ∧
    e1.1.vim_fn_name = some (vimFnNameOf g.name fn.fname) ∧
    GinMethod.make_vim_function e1.1 e1.2 = e1 := by
  have hm : Gin.method g fn =
      ({ g with
          methods := ainsert g.methods fn.fn_repr (GinMethod.mk_of g.name fn) },
        GinMethod.mk_of g.name fn) := by
    simp [Gin.method, hfresh]
  rw [hm] at h1
  subst h1
  subst he
  have hne := vimFnNameOf_ne_empty g.name fn.fname
  refine ⟨?_, ?_, ?_, ?_⟩
  · simp [Gin.method, alookup_ainsert_self]
  · simp [GinMethod.make_vim_function, GinMethod.mk_of, pyTruthyStr]
  · simp [GinMethod.make_vim_function, GinMethod.mk_of, pyTruthyStr]
  · simp [GinMethod.make_vim_function, GinMethod.mk_of, pyTruthyStr, hne]

/-- Witness for C8 on the concrete plugin `c8_g` and handler `c8_fn`. -/
theorem C8_binding_idempotent_witness :
    Gin.method (Gin.method c8_g c8_fn).1 c8_fn = Gin.method c8_g c8_fn ∧
    (GinMethod.make_vim_function (Gin.method c8_g c8_fn).2 []).2.length =
      ([] : List String).length + 1 ∧
    (GinMethod.make_vim_function (Gin.method c8_g c8_fn).2 []).1.vim_fn_name =
      some (vimFnNameOf "my-plug" "do_stuff") ∧
    GinMethod.make_vim_function
        (GinMethod.make_vim_function (Gin.method c8_g c8_fn).2 []).1
        (GinMethod.make_vim_function (Gin.method c8_g c8_fn).2 []).2 =
      GinMethod.make_vim_function (Gin.method c8_g c8_fn).2 [] :=
  C8_binding_idempotent c8_g c8_fn [] _ _ rfl rfl rfl
